import Mathlib

/-!
Verification of the notes-app backend against its specification.

The development shallowly embeds the data model (`app/models/note.py`), the
request schemas (`app/schemas/note.py`, `app/schemas/user.py`), the exception
handlers (`app/exceptions.py`) and the request handlers
(`app/routers/notes.py`, `app/routers/auth.py`).  The database session is
modelled as an explicit value of type `DB` threaded through every operation;
SQLAlchemy's `query(...).filter(...).first()` becomes `List.find?` over the
table, `db.add`/`db.commit` become functional updates of that value, and
`HTTPException` becomes an `Except` error value carrying the status code and
detail string from the source.
-/

/-- A row of the `notes` table (`app/models/note.py`, class `Note`):
`id` integer primary key, `title` string, `content` optional text,
`user_id` foreign key to the owning user, `version` integer defaulting to 1,
and server-maintained timestamps (modelled as abstract ticks). -/
structure Note where
  id : Nat
  title : String
  content : Option String
  user_id : Nat
  version : Int
  created_at : Nat
  updated_at : Nat
deriving Repr, DecidableEq

/-- A row of the `users` table: `id`, unique `username`, `password_hash`
(only the fields the login flow reads). -/
structure User where
  id : Nat
  username : String
  password_hash : String
deriving Repr, DecidableEq

/-- The database state seen by the handlers: the `notes` table in insertion
order plus the autoincrement counter for the next primary key. -/
structure DB where
  notes : List Note
  nextId : Nat
deriving Repr, DecidableEq

/-- Pydantic schema `NoteCreate` (`app/schemas/note.py`): `title` required,
`content` optional. -/
structure NoteCreate where
  title : String
  content : Option String
deriving Repr, DecidableEq

/-- Pydantic schema `NoteUpdate` (`app/schemas/note.py`): `title` required,
`content` optional, `version` required. -/
structure NoteUpdate where
  title : String
  content : Option String
  version : Int
deriving Repr, DecidableEq

/-- A raw JSON request body for the note endpoints, before schema
validation: each field may be present or absent. -/
structure RawNoteBody where
  title : Option String
  content : Option String
  version : Option Int
deriving Repr, DecidableEq

/-- The `Field(..., min_length=1, max_length=200)` constraint on `title`. -/
def validTitle (t : String) : Bool :=
  1 ≤ t.length && t.length ≤ 200

/-- One entry of the error list built by `validation_exception_handler`
(`app/exceptions.py`): joined location, message and type. -/
structure FieldError where
  field : String
  message : String
  type : String
deriving Repr, DecidableEq

/-- Pydantic error for a missing `title` field. -/
def titleRequiredError : FieldError :=
  { field := "body -> title", message := "Field required", type := "missing" }

/-- Pydantic error for a `title` violating the 1..200 length bounds. -/
def titleLengthError : FieldError :=
  { field := "body -> title"
    message := "String should have between 1 and 200 characters"
    type := "string_length" }

/-- Pydantic error for a missing `version` field. -/
def versionRequiredError : FieldError :=
  { field := "body -> version", message := "Field required", type := "missing" }

/-- Validation errors contributed by the `title` field of a raw body. -/
def titleFieldErrors : Option String → List FieldError
  | none => [titleRequiredError]
  | some t => if validTitle t then [] else [titleLengthError]

/-- Validation errors contributed by the `version` field of a raw body. -/
def versionFieldErrors : Option Int → List FieldError
  | none => [versionRequiredError]
  | some _ => []

/-- Schema validation of a Create body against `NoteCreate`: `title` must be
present with 1..200 characters; `content` is optional (defaults to null). -/
def parseNoteCreate (r : RawNoteBody) : Except (List FieldError) NoteCreate :=
  match r.title with
  | none => .error [titleRequiredError]
  | some t =>
      if validTitle t then .ok { title := t, content := r.content }
      else .error [titleLengthError]

/-- Schema validation of an Update body against `NoteUpdate`: `title` and
`version` must be present, `title` with 1..200 characters; `content` is
optional (defaults to null). -/
def parseNoteUpdate (r : RawNoteBody) : Except (List FieldError) NoteUpdate :=
  match r.title, r.version with
  | some t, some v =>
      if validTitle t then .ok { title := t, content := r.content, version := v }
      else .error [titleLengthError]
  | _, _ => .error (titleFieldErrors r.title ++ versionFieldErrors r.version)

/-- An `HTTPException` response: status code, detail string and extra
headers. -/
structure ErrorResponse where
  status_code : Nat
  detail : String
  headers : List (String × String)
deriving Repr, DecidableEq

/-- The 404 raised by `get_note`, `update_note` and `delete_note`
(`app/routers/notes.py`). -/
def noteNotFound : ErrorResponse :=
  { status_code := 404, detail := "Note not found", headers := [] }

/-- The 409 raised by `update_note` when the presented version is stale. -/
def versionConflict : ErrorResponse :=
  { status_code := 409
    detail := "Note was modified by another process. Please refresh and try again."
    headers := [] }

/-- The 401 raised by `login_user` (`app/routers/auth.py`) for both a missing
user and a failed password check. -/
def badCredentials : ErrorResponse :=
  { status_code := 401
    detail := "Incorrect username or password"
    headers := [("WWW-Authenticate", "Bearer")] }

/-- The JSON response produced by `validation_exception_handler`. -/
structure ValidationResponse where
  status_code : Nat
  detail : String
  error_code : String
  errors : List FieldError
deriving Repr, DecidableEq

/-- `validation_exception_handler` (`app/exceptions.py`): renders a
`RequestValidationError` as a JSON response with status
`HTTP_400_BAD_REQUEST`, detail "Validation error" and error code
`VALIDATION_ERROR`. -/
def validation_exception_handler (errs : List FieldError) : ValidationResponse :=
  { status_code := 400
    detail := "Validation error"
    error_code := "VALIDATION_ERROR"
    errors := errs }

/-- An HTTP response from a note endpoint: a note payload, a plain message,
an `HTTPException` rendering, or a validation-error rendering. -/
inductive Response where
  | note (status_code : Nat) (n : Note)
  | message (status_code : Nat) (msg : String)
  | failure (e : ErrorResponse)
  | invalid (v : ValidationResponse)
deriving Repr, DecidableEq

/-- `db.query(Note).filter(Note.id == note_id, Note.user_id ==
current_user.id).first()` — the ownership-scoped lookup shared by the Get,
Update and Delete handlers. -/
def firstOwned (db : DB) (note_id uid : Nat) : Option Note :=
  db.notes.find? (fun n => n.id == note_id && n.user_id == uid)

/-- `create_note` (`app/routers/notes.py`): builds a `Note` from the
validated payload and the authenticated user's id, letting the column
defaults assign the primary key, `version = 1` and the timestamps, then
commits and returns the fresh row. -/
def create_note (db : DB) (uid : Nat) (data : NoteCreate) (now : Nat) : Note × DB :=
  let n : Note :=
    { id := db.nextId, title := data.title, content := data.content,
      user_id := uid, version := 1, created_at := now, updated_at := now }
  (n, { notes := db.notes ++ [n], nextId := db.nextId + 1 })

/-- `get_user_notes` (`app/routers/notes.py`): all notes whose `user_id`
equals the authenticated user's id. -/
def get_user_notes (db : DB) (uid : Nat) : List Note :=
  db.notes.filter (fun n => n.user_id == uid)

/-- `get_note` (`app/routers/notes.py`): the ownership-scoped lookup,
raising the 404 when it finds nothing. -/
def get_note (db : DB) (uid note_id : Nat) : Except ErrorResponse Note :=
  match firstOwned db note_id uid with
  | none => .error noteNotFound
  | some n => .ok n

/-- The fetch-and-compare phase of `update_note`: the ownership-scoped
lookup followed by the optimistic-locking comparison
`note.version != note_update.version`. -/
def updateFetchCheck (db : DB) (uid note_id : Nat) (u : NoteUpdate) :
    Except ErrorResponse Note :=
  match firstOwned db note_id uid with
  | none => .error noteNotFound
  | some n =>
      if n.version ≠ u.version then .error versionConflict else .ok n

/-- The write phase of `update_note`: assigns `title`, `content`,
`version += 1` and the refreshed `updated_at` on the fetched row and commits
it back to the table by primary key.  The version written is the fetched
snapshot's version plus one. -/
def updateWrite (db : DB) (snap : Note) (u : NoteUpdate) (now : Nat) : Note × DB :=
  let n : Note :=
    { snap with title := u.title, content := u.content,
                version := snap.version + 1, updated_at := now }
  (n, { db with notes := db.notes.map (fun m => if m.id = snap.id then n else m) })

/-- `update_note` (`app/routers/notes.py`) run to completion without
interleaving: fetch-and-compare, then write. -/
def update_note (db : DB) (uid note_id : Nat) (u : NoteUpdate) (now : Nat) :
    Except ErrorResponse Note × DB :=
  match updateFetchCheck db uid note_id u with
  | .error e => (.error e, db)
  | .ok snap =>
      let w := updateWrite db snap u now
      (.ok w.1, w.2)

/-- `delete_note` (`app/routers/notes.py`): the ownership-scoped lookup,
then `db.delete(note)` (removal by primary key) and the success message. -/
def delete_note (db : DB) (uid note_id : Nat) : Except ErrorResponse String × DB :=
  match firstOwned db note_id uid with
  | none => (.error noteNotFound, db)
  | some n =>
      (.ok "Note deleted successfully",
       { db with notes := db.notes.filter (fun m => m.id != n.id) })

/-- `POST /notes` as a pipeline: schema validation first (rendered by
`validation_exception_handler` on failure, leaving the database untouched),
then the `create_note` handler with a 201. -/
def post_note_endpoint (db : DB) (uid : Nat) (raw : RawNoteBody) (now : Nat) :
    Response × DB :=
  match parseNoteCreate raw with
  | .error errs => (.invalid (validation_exception_handler errs), db)
  | .ok data =>
      let c := create_note db uid data now
      (.note 201 c.1, c.2)

/-- `PUT /notes/{note_id}` as a pipeline: schema validation first (rendered
by `validation_exception_handler` on failure, leaving the database
untouched), then the `update_note` handler with a 200. -/
def put_note_endpoint (db : DB) (uid note_id : Nat) (raw : RawNoteBody) (now : Nat) :
    Response × DB :=
  match parseNoteUpdate raw with
  | .error errs => (.invalid (validation_exception_handler errs), db)
  | .ok u =>
      match update_note db uid note_id u now with
      | (.ok n, db2) => (.note 200 n, db2)
      | (.error e, db2) => (.failure e, db2)

/-- Schema `UserLogin` (`app/schemas/user.py`). -/
structure UserLogin where
  username : String
  password : String
deriving Repr, DecidableEq

/-- Schema `Token` (`app/schemas/user.py`). -/
structure Token where
  access_token : String
  token_type : String
deriving Repr, DecidableEq

/-- Modelled from the spec: `create_access_token` lives in
`app/services/auth.py`, which is not part of the source tree here; the spec
describes it as issuing a signed token embedding `user_id` and `username`
with a fixed expiry.  The token content is opaque to every theorem below. -/
def create_access_token (user_id : Nat) (username : String) : String :=
  "signed-token(" ++ toString user_id ++ "," ++ username ++ ")"

/-- `login_user` (`app/routers/auth.py`): looks the username up, and when
the lookup fails or `verify_password` rejects, raises the single generic
401; otherwise issues a bearer token.  `verify_password` (from the external
`app/services/auth.py`) is passed in as an opaque predicate. -/
def login_user (users : List User) (verify_password : String → String → Bool)
    (c : UserLogin) : Except ErrorResponse Token :=
  match users.find? (fun u => u.username == c.username) with
  | none => .error badCredentials
  | some u =>
      if verify_password c.password u.password_hash then
        .ok { access_token := create_access_token u.id u.username,
              token_type := "bearer" }
      else .error badCredentials

/-- Database well-formedness maintained by the handlers: every stored
primary key is below the autoincrement counter, and primary keys are
distinct. -/
abbrev WF (db : DB) : Prop :=
  (∀ n ∈ db.notes, n.id < db.nextId) ∧ (db.notes.map (fun n => n.id)).Nodup

/-- The notes table with every row's `version` column rewritten by `f` —
used only to state that an operation never consults the version column. -/
def withVersions (db : DB) (f : Note → Int) : DB :=
  { db with notes := db.notes.map (fun n => { n with version := f n }) }

/-- A chain of sequential `update_note` calls by one user on one note, each
presenting the version returned by the previous call, as in the spec's
sequential-update property.  Returns `none` as soon as one call fails. -/
def applyUpdates (db : DB) (uid note_id : Nat) (cur : Note)
    (ps : List (String × Option String)) (now : Nat) : Option (Note × DB) :=
  match ps with
  | [] => some (cur, db)
  | (t, c) :: rest =>
      match update_note db uid note_id { title := t, content := c, version := cur.version } now with
      | (.ok n, db2) => applyUpdates db2 uid note_id n rest now
      | (.error _, _) => none

/-! ### Helper lemmas about the embedded operations -/

theorem firstOwned_eq_some {db : DB} {note_id uid : Nat} {n : Note}
    (h : firstOwned db note_id uid = some n) :
    n.id = note_id ∧ n.user_id = uid ∧ n ∈ db.notes := by
  simp only [firstOwned] at h
  have hp := List.find?_some h
  have hm := List.mem_of_find?_eq_some h
  simp only [Bool.and_eq_true, beq_iff_eq] at hp
  exact ⟨hp.1, hp.2, hm⟩

theorem find?_map_ite {p : Note → Bool} {snap n2 : Note}
    (hid : n2.id = snap.id) (hp2 : p n2 = true) :
    ∀ {l : List Note}, (l.map (fun n => n.id)).Nodup → l.find? p = some snap →
      (l.map (fun m => if m.id = snap.id then n2 else m)).find? p = some n2 := by
  intro l
  induction l with
  | nil => intro _ h; simp at h
  | cons a tl ih =>
      intro hnd hfind
      by_cases hpa : p a = true
      · rw [List.find?_cons_of_pos _ hpa] at hfind
        have ha : a = snap := Option.some.inj hfind
        subst ha
        simp only [List.map_cons, if_pos rfl]
        exact List.find?_cons_of_pos _ hp2
      · rw [List.find?_cons_of_neg _ hpa] at hfind
        have hmem : snap ∈ tl := List.mem_of_find?_eq_some hfind
        have hnd2 : (tl.map (fun n => n.id)).Nodup := (List.nodup_cons.mp hnd).2
        have hne : a.id ≠ snap.id := by
          intro he
          apply (List.nodup_cons.mp hnd).1
          have hin : snap.id ∈ tl.map (fun n => n.id) := List.mem_map_of_mem _ hmem
          show a.id ∈ tl.map (fun n => n.id)
          rw [he]
          exact hin
        simp only [List.map_cons, if_neg hne]
        rw [List.find?_cons_of_neg _ hpa]
        exact ih hnd2 hfind

theorem updateWrite_ids (db : DB) (snap : Note) (u : NoteUpdate) (now : Nat) :
    ((updateWrite db snap u now).2.notes.map (fun n => n.id)) =
      db.notes.map (fun n => n.id) := by
  simp only [updateWrite, List.map_map]
  apply List.map_congr_left
  intro m _
  by_cases h : m.id = snap.id
  · simp [Function.comp, if_pos h, h]
  · simp [Function.comp, if_neg h]

theorem firstOwned_updateWrite {db : DB} {uid note_id : Nat} {snap : Note}
    (u : NoteUpdate) (now : Nat)
    (hnd : (db.notes.map (fun n => n.id)).Nodup)
    (h : firstOwned db note_id uid = some snap) :
    firstOwned (updateWrite db snap u now).2 note_id uid =
      some (updateWrite db snap u now).1 := by
  obtain ⟨hid, huid, -⟩ := firstOwned_eq_some h
  simp only [firstOwned] at h ⊢
  simp only [updateWrite]
  exact @find?_map_ite (fun n => n.id == note_id && n.user_id == uid) snap
    { snap with title := u.title, content := u.content,
                version := snap.version + 1, updated_at := now }
    rfl (by simp [hid, huid]) db.notes hnd h

theorem find?_append_singleton {l : List Note} {p : Note → Bool} {x : Note}
    (hl : ∀ y ∈ l, p y = false) (hx : p x = true) :
    (l ++ [x]).find? p = some x := by
  rw [List.find?_append]
  have hnone : l.find? p = none := by
    rw [List.find?_eq_none]
    intro y hy
    simp [hl y hy]
  rw [hnone]
  simp [hx]

theorem find?_map_invariant {l : List Note} {g : Note → Note} {p : Note → Bool}
    (h : ∀ n, p (g n) = p n) :
    (l.map g).find? p = (l.find? p).map g := by
  have hpg : (p ∘ g) = p := funext h
  rw [List.find?_map, hpg]

theorem firstOwned_other_user_none {db : DB} {n : Note} {b : Nat}
    (hnd : (db.notes.map (fun x => x.id)).Nodup)
    (hn : n ∈ db.notes) (hb : n.user_id ≠ b) :
    firstOwned db n.id b = none := by
  simp only [firstOwned]
  rw [List.find?_eq_none]
  intro m hm
  simp only [Bool.and_eq_true, beq_iff_eq, not_and]
  intro hid
  have hmn : m = n := List.inj_on_of_nodup_map hnd hm hn hid
  rw [hmn]
  exact hb

theorem firstOwned_absent {db : DB} {j : Nat}
    (h : ∀ m ∈ db.notes, m.id ≠ j) (c : Nat) :
    firstOwned db j c = none := by
  simp only [firstOwned]
  rw [List.find?_eq_none]
  intro m hm
  simp only [Bool.and_eq_true, beq_iff_eq, not_and]
  intro hid
  exact absurd hid (h m hm)

theorem WF_create {db : DB} (uid : Nat) (data : NoteCreate) (now : Nat)
    (h : WF db) : WF (create_note db uid data now).2 := by
  obtain ⟨hbound, hnd⟩ := h
  refine ⟨?_, ?_⟩
  · intro n hn
    simp only [create_note, List.mem_append, List.mem_singleton] at hn
    rcases hn with hn | rfl
    · exact Nat.lt_succ_of_lt (hbound n hn)
    · exact Nat.lt_succ_self _
  · simp only [create_note, List.map_append, List.map_singleton]
    rw [List.nodup_append]
    refine ⟨hnd, List.nodup_singleton _, ?_⟩
    intro x hx hx2
    simp only [List.mem_singleton] at hx2
    obtain ⟨m, hm, hme⟩ := List.mem_map.mp hx
    have hme2 : m.id = x := hme
    have hlt := hbound m hm
    omega

theorem WF_updateWrite {db : DB} {snap : Note} (u : NoteUpdate) (now : Nat)
    (h : WF db) : WF (updateWrite db snap u now).2 := by
  obtain ⟨hbound, hnd⟩ := h
  refine ⟨?_, ?_⟩
  · intro n hn
    have hid : n.id ∈ (updateWrite db snap u now).2.notes.map (fun x => x.id) :=
      List.mem_map_of_mem _ hn
    rw [updateWrite_ids] at hid
    obtain ⟨m, hm, hme⟩ := List.mem_map.mp hid
    have hme2 : m.id = n.id := hme
    have hlt := hbound m hm
    show n.id < db.nextId
    omega
  · rw [updateWrite_ids]
    exact hnd

theorem WF_delete {db : DB} (uid note_id : Nat) (h : WF db) :
    WF (delete_note db uid note_id).2 := by
  obtain ⟨hbound, hnd⟩ := h
  cases hf : firstOwned db note_id uid with
  | none =>
      simp only [delete_note, hf]
      exact ⟨hbound, hnd⟩
  | some n =>
      simp only [delete_note, hf]
      refine ⟨?_, ?_⟩
      · intro m hm
        exact hbound m (List.mem_of_mem_filter hm)
      · exact List.Nodup.sublist (List.Sublist.map _ (List.filter_sublist _)) hnd

theorem firstOwned_after_delete {db : DB} {uid note_id : Nat} {n : Note}
    (hf : firstOwned db note_id uid = some n) (c : Nat) :
    firstOwned (delete_note db uid note_id).2 note_id c = none := by
  obtain ⟨hid, -, -⟩ := firstOwned_eq_some hf
  simp only [delete_note, hf]
  simp only [firstOwned]
  rw [List.find?_eq_none]
  intro m hm
  rw [List.mem_filter] at hm
  simp only [Bool.and_eq_true, beq_iff_eq, not_and]
  intro hmid
  exfalso
  have hne : m.id ≠ n.id := by simpa using hm.2
  exact hne (by rw [hmid, hid])

theorem applyUpdates_ok (uid note_id : Nat) (now : Nat) :
    ∀ (ps : List (String × Option String)) (db : DB) (cur : Note),
      (db.notes.map (fun n => n.id)).Nodup →
      firstOwned db note_id uid = some cur →
      ∃ fin dbF, applyUpdates db uid note_id cur ps now = some (fin, dbF) ∧
        fin.version = cur.version + ps.length ∧
        firstOwned dbF note_id uid = some fin ∧
        (dbF.notes.map (fun n => n.id)).Nodup := by
  intro ps
  induction ps with
  | nil =>
      intro db cur hnd hf
      exact ⟨cur, db, rfl, by simp, hf, hnd⟩
  | cons p rest ih =>
      intro db cur hnd hf
      obtain ⟨t, c⟩ := p
      have hstep : update_note db uid note_id
          { title := t, content := c, version := cur.version } now
          = (.ok (updateWrite db cur { title := t, content := c, version := cur.version } now).1,
             (updateWrite db cur { title := t, content := c, version := cur.version } now).2) := by
        simp only [update_note, updateFetchCheck, hf]
        simp
      have hnd2 : ((updateWrite db cur
          { title := t, content := c, version := cur.version } now).2.notes.map
            (fun n => n.id)).Nodup := by
        rw [updateWrite_ids]
        exact hnd
      have hf2 := firstOwned_updateWrite
        { title := t, content := c, version := cur.version } now hnd hf
      obtain ⟨fin, dbF, happ, hver, hff, hndF⟩ :=
        ih (updateWrite db cur { title := t, content := c, version := cur.version } now).2
           (updateWrite db cur { title := t, content := c, version := cur.version } now).1
           hnd2 hf2
      refine ⟨fin, dbF, ?_, ?_, hff, hndF⟩
      · simp only [applyUpdates, hstep]
        exact happ
      · have hwv : (updateWrite db cur
            { title := t, content := c, version := cur.version } now).1.version
            = cur.version + 1 := rfl
        rw [hver, hwv]
        simp only [List.length_cons]
        push_cast
        ring

/-! ### Concrete fixtures used by witnesses and counterexamples -/

/-- A sample stored note: id 1, version 1, owned by user 7. -/
def sampleNote : Note :=
  { id := 1, title := "t", content := some "c", user_id := 7,
    version := 1, created_at := 0, updated_at := 0 }

/-- A sample database holding exactly `sampleNote`. -/
def sampleDB : DB := { notes := [sampleNote], nextId := 2 }

/-- The empty database. -/
def emptyDB : DB := { notes := [], nextId := 1 }

/-- A sample registered user. -/
def aliceUser : User := { id := 1, username := "alice", password_hash := "h" }

/-! ### Claims -/

/-- C10: for every Create call the created note's owner is the
authenticated caller's identity and its version is 1; the create body
carries only `title` and `content`, so the result's `id`, `user_id` and
`version` are identical for any two payloads — a client can never supply or
influence them. -/
theorem C10_create_forces_owner_and_version (db : DB) (uid : Nat)
    (data other : NoteCreate) (now : Nat) :
    (create_note db uid data now).1.user_id = uid ∧
    (create_note db uid data now).1.version = 1 ∧
    (create_note db uid data now).1.id = db.nextId ∧
    (create_note db uid data now).1.id = (create_note db uid other now).1.id ∧
    (create_note db uid data now).1.user_id = (create_note db uid other now).1.user_id ∧
    (create_note db uid data now).1.version = (create_note db uid other now).1.version :=
  ⟨rfl, rfl, rfl, rfl, rfl, rfl⟩

/-- C4: an Update presenting an `expected_version` different from the stored
version of an owned, existing note fails with the 409 `versionConflict` and
returns the database unchanged — so title, content, version and updated_at
all keep their prior values, and a Get still returns the old note. -/
theorem C4_stale_update_conflict_leaves_note_unchanged
    (db : DB) (uid note_id : Nat) (u : NoteUpdate) (now : Nat) (note : Note)
    (hfound : firstOwned db note_id uid = some note)
    (hver : note.version ≠ u.version) :
    update_note db uid note_id u now = (.error versionConflict, db) ∧
    versionConflict.status_code = 409 ∧
    get_note (update_note db uid note_id u now).2 uid note_id = .ok note := by
  have h1 : update_note db uid note_id u now = (.error versionConflict, db) := by
    simp only [update_note, updateFetchCheck, hfound, if_pos hver]
  refine ⟨h1, rfl, ?_⟩
  rw [h1]
  simp only [get_note, hfound]

/-- Witness for C4: a stale update (expected_version 3 against stored
version 1) on the sample database. -/
theorem C4_witness :
    update_note sampleDB 7 1 { title := "A", content := none, version := 3 } 5
      = (.error versionConflict, sampleDB) ∧
    versionConflict.status_code = 409 ∧
    get_note (update_note sampleDB 7 1 { title := "A", content := none, version := 3 } 5).2 7 1
      = .ok sampleNote :=
  C4_stale_update_conflict_leaves_note_unchanged sampleDB 7 1
    { title := "A", content := none, version := 3 } 5 sampleNote rfl (by decide)

/-- C7: a login whose username lookup succeeds but whose password check
fails and a login whose username lookup fails produce the identical generic
401 response — same status, same detail, same headers — so the response
reveals nothing about whether the username exists. -/
theorem C7_login_enumeration_resistant
    (users : List User) (verify_password : String → String → Bool)
    (c1 c2 : UserLogin) (u : User)
    (h1 : users.find? (fun x => x.username == c1.username) = some u)
    (h2 : verify_password c1.password u.password_hash = false)
    (h3 : users.find? (fun x => x.username == c2.username) = none) :
    login_user users verify_password c1 = .error badCredentials ∧
    login_user users verify_password c2 = .error badCredentials ∧
    login_user users verify_password c1 = login_user users verify_password c2 ∧
    badCredentials.status_code = 401 := by
  have e1 : login_user users verify_password c1 = .error badCredentials := by
    simp only [login_user, h1, h2]
    simp
  have e2 : login_user users verify_password c2 = .error badCredentials := by
    simp only [login_user, h3]
  exact ⟨e1, e2, e1.trans e2.symm, rfl⟩

/-- Witness for C7: wrong password for the existing "alice" versus the
nonexistent "bob". -/
theorem C7_witness :
    login_user [aliceUser] (fun _ _ => false) { username := "alice", password := "x" }
      = .error badCredentials ∧
    login_user [aliceUser] (fun _ _ => false) { username := "bob", password := "x" }
      = .error badCredentials ∧
    login_user [aliceUser] (fun _ _ => false) { username := "alice", password := "x" }
      = login_user [aliceUser] (fun _ _ => false) { username := "bob", password := "x" } ∧
    badCredentials.status_code = 401 :=
  C7_login_enumeration_resistant [aliceUser] (fun _ _ => false)
    { username := "alice", password := "x" } { username := "bob", password := "x" }
    aliceUser rfl rfl rfl

/-- The initial state of the concurrent-update scenario: one note, id 1,
version 1, owned by user 7. -/
def raceDB : DB :=
  { notes := [{ id := 1, title := "orig", content := some "orig content",
                user_id := 7, version := 1, created_at := 0, updated_at := 0 }],
    nextId := 2 }

/-- The snapshot both concurrent writers fetch from `raceDB`. -/
def raceSnap : Note :=
  { id := 1, title := "orig", content := some "orig content",
    user_id := 7, version := 1, created_at := 0, updated_at := 0 }

/-- Writer A's payload, presenting expected_version 1. -/
def racePayloadA : NoteUpdate := { title := "A", content := some "from A", version := 1 }

/-- Writer B's payload, presenting the same expected_version 1. -/
def racePayloadB : NoteUpdate := { title := "B", content := some "from B", version := 1 }

/-- C1 (violated by the code): `update_note` is a fetch-and-compare
(`updateFetchCheck`) followed by a write (`updateWrite`) with no
storage-level guard between them — the first conjunct shows a completed
`update_note` call is exactly this composition.  Under the interleaving
read-A, read-B, write-A, write-B both concurrent calls fetch version 1, both
pass the `expected_version = 1` check, and both commit: two successes (each
writer is returned its own note at version 2), the final stored state is B's
payload with version 2, and A's committed write is silently overwritten — a
lost update, where the claim demands exactly one success and one 409
VersionConflict. -/
theorem C1_lost_update_both_updates_succeed :
    update_note raceDB 7 1 racePayloadA 1
      = (.ok (updateWrite raceDB raceSnap racePayloadA 1).1,
         (updateWrite raceDB raceSnap racePayloadA 1).2) ∧
    updateFetchCheck raceDB 7 1 racePayloadA = .ok raceSnap ∧
    updateFetchCheck raceDB 7 1 racePayloadB = .ok raceSnap ∧
    (updateWrite raceDB raceSnap racePayloadA 1).1.title = "A" ∧
    (updateWrite raceDB raceSnap racePayloadA 1).1.version = 2 ∧
    (updateWrite (updateWrite raceDB raceSnap racePayloadA 1).2 raceSnap racePayloadB 2).1.title = "B" ∧
    (updateWrite (updateWrite raceDB raceSnap racePayloadA 1).2 raceSnap racePayloadB 2).1.version = 2 ∧
    (updateWrite (updateWrite raceDB raceSnap racePayloadA 1).2 raceSnap racePayloadB 2).2.notes
      = [{ id := 1, title := "B", content := some "from B", user_id := 7,
           version := 2, created_at := 0, updated_at := 2 }] :=
  ⟨rfl, rfl, rfl, rfl, rfl, rfl, rfl, rfl⟩

/-- C5 (violated by the code on the status): a Create body with an empty
title is rejected by schema validation before any persistence — the
database comes back untouched — and rendered by
`validation_exception_handler` with error code VALIDATION_ERROR, but with
HTTP status 400, not the 422 the claim states. -/
theorem C5_validation_rejected_with_status_400 :
    post_note_endpoint emptyDB 7 { title := some "", content := some "x", version := none } 0
      = (.invalid { status_code := 400, detail := "Validation error",
                    error_code := "VALIDATION_ERROR", errors := [titleLengthError] },
         emptyDB) ∧
    (validation_exception_handler [titleLengthError]).status_code = 400 ∧
    ¬ (validation_exception_handler [titleLengthError]).status_code = 422 :=
  ⟨rfl, rfl, by decide⟩

/-- C9 counterexample: the PUT body carrying only `title` and `version`
(omitting `content`) passes schema validation with null content, reaches the
handler, succeeds with 200 and modifies the stored note — it is neither
rejected nor a no-op, contradicting the claim that all three fields are
required. -/
theorem C9_counterexample_content_not_required :
    parseNoteUpdate { title := some "new", content := none, version := some 1 }
      = .ok { title := "new", content := none, version := 1 } ∧
    (put_note_endpoint sampleDB 7 1 { title := some "new", content := none, version := some 1 } 3).1
      = .note 200 { id := 1, title := "new", content := none, user_id := 7,
                    version := 2, created_at := 0, updated_at := 3 } ∧
    ¬ (put_note_endpoint sampleDB 7 1 { title := some "new", content := none, version := some 1 } 3).2
      = sampleDB :=
  ⟨rfl, rfl, by decide⟩

/-- C9 (amended): an Update body must contain `title` and `version`; a PUT
request omitting either is rejected through `validation_exception_handler`
with a nonempty error list and does not modify the database; `content`
remains optional — a body omitting it still validates, with null content. -/
theorem C9_amended_title_and_version_required
    (db : DB) (uid note_id : Nat) (raw : RawNoteBody) (now : Nat)
    (h : raw.title = none ∨ raw.version = none) :
    (∃ errs, errs ≠ [] ∧
      put_note_endpoint db uid note_id raw now
        = (.invalid (validation_exception_handler errs), db)) ∧
    (∀ t v, validTitle t = true →
      parseNoteUpdate { title := some t, content := none, version := some v }
        = .ok { title := t, content := none, version := v }) := by
  obtain ⟨tit, con, ver⟩ := raw
  refine ⟨?_, ?_⟩
  · rcases h with h | h
    · have h2 : tit = none := h
      subst h2
      cases ver with
      | none =>
          exact ⟨[titleRequiredError, versionRequiredError], by decide,
            by simp [put_note_endpoint, parseNoteUpdate, titleFieldErrors, versionFieldErrors]⟩
      | some v =>
          exact ⟨[titleRequiredError], by decide,
            by simp [put_note_endpoint, parseNoteUpdate, titleFieldErrors, versionFieldErrors]⟩
    · have h2 : ver = none := h
      subst h2
      cases tit with
      | none =>
          exact ⟨[titleRequiredError, versionRequiredError], by decide,
            by simp [put_note_endpoint, parseNoteUpdate, titleFieldErrors, versionFieldErrors]⟩
      | some t =>
          by_cases hv : validTitle t
          · exact ⟨[versionRequiredError], by decide,
              by simp [put_note_endpoint, parseNoteUpdate, titleFieldErrors, versionFieldErrors, hv]⟩
          · exact ⟨[titleLengthError, versionRequiredError], by decide,
              by simp [put_note_endpoint, parseNoteUpdate, titleFieldErrors, versionFieldErrors, hv]⟩
  · intro t v hv
    simp [parseNoteUpdate, hv]

/-- Witness for the amended C9: a PUT body omitting `title` on the sample
database. -/
theorem C9_amended_witness :
    (∃ errs, errs ≠ [] ∧
      put_note_endpoint sampleDB 7 1 { title := none, content := some "c", version := some 1 } 4
        = (.invalid (validation_exception_handler errs), sampleDB)) ∧
    (∀ t v, validTitle t = true →
      parseNoteUpdate { title := some t, content := none, version := some v }
        = .ok { title := t, content := none, version := v }) :=
  C9_amended_title_and_version_required sampleDB 7 1
    { title := none, content := some "c", version := some 1 } 4 (Or.inl rfl)

/-- C3: a note owned by user `a` is invisible to any other user `b`: it
never appears in `b`'s List result, and `b`'s Get, Update (with any
expected_version) and Delete on its id all fail with the 404 `noteNotFound`
leaving the database untouched — the very same responses those operations
give `b` on an id absent from the store, so `b` cannot distinguish another
user's note from an absent one. -/
theorem C3_ownership_isolation
    (db : DB) (a b : Nat) (n : Note) (u : NoteUpdate) (now : Nat)
    (hmem : n ∈ db.notes) (howner : n.user_id = a) (hab : a ≠ b)
    (hnd : (db.notes.map (fun x => x.id)).Nodup) :
    n ∉ get_user_notes db b ∧
    get_note db b n.id = .error noteNotFound ∧
    update_note db b n.id u now = (.error noteNotFound, db) ∧
    delete_note db b n.id = (.error noteNotFound, db) ∧
    (∀ j, (∀ m ∈ db.notes, m.id ≠ j) →
      get_note db b j = get_note db b n.id ∧
      update_note db b j u now = update_note db b n.id u now ∧
      delete_note db b j = delete_note db b n.id) := by
  have hnb : n.user_id ≠ b := by rw [howner]; exact hab
  have hnone : firstOwned db n.id b = none := firstOwned_other_user_none hnd hmem hnb
  have hget : get_note db b n.id = .error noteNotFound := by
    simp only [get_note, hnone]
  have hupd : update_note db b n.id u now = (.error noteNotFound, db) := by
    simp only [update_note, updateFetchCheck, hnone]
  have hdel : delete_note db b n.id = (.error noteNotFound, db) := by
    simp only [delete_note, hnone]
  refine ⟨?_, hget, hupd, hdel, ?_⟩
  · intro hin
    simp only [get_user_notes, List.mem_filter, beq_iff_eq] at hin
    exact hnb hin.2
  · intro j hj
    have habs : firstOwned db j b = none := firstOwned_absent hj b
    refine ⟨?_, ?_, ?_⟩
    · rw [hget]
      simp only [get_note, habs]
    · rw [hupd]
      simp only [update_note, updateFetchCheck, habs]
    · rw [hdel]
      simp only [delete_note, habs]

/-- Witness for C3: user 9 probing user 7's sample note. -/
theorem C3_witness :
    sampleNote ∉ get_user_notes sampleDB 9 ∧
    get_note sampleDB 9 sampleNote.id = .error noteNotFound ∧
    update_note sampleDB 9 sampleNote.id { title := "x", content := none, version := 1 } 4
      = (.error noteNotFound, sampleDB) ∧
    delete_note sampleDB 9 sampleNote.id = (.error noteNotFound, sampleDB) ∧
    (∀ j, (∀ m ∈ sampleDB.notes, m.id ≠ j) →
      get_note sampleDB 9 j = get_note sampleDB 9 sampleNote.id ∧
      update_note sampleDB 9 j { title := "x", content := none, version := 1 } 4
        = update_note sampleDB 9 sampleNote.id { title := "x", content := none, version := 1 } 4 ∧
      delete_note sampleDB 9 j = delete_note sampleDB 9 sampleNote.id) :=
  C3_ownership_isolation sampleDB 7 9 sampleNote
    { title := "x", content := none, version := 1 } 4
    (by decide) rfl (by decide) (by decide)

/-- C8: Delete on an owned, existing note succeeds without consulting the
version column (the outcome is unchanged under arbitrary rewriting of every
stored version, and no expected_version appears in its interface), and after
the delete every Get, Update and Delete on that id by any user fails with
the 404 and leaves the post-delete state untouched. -/
theorem C8_delete_unconditional_then_not_found
    (db : DB) (uid note_id : Nat) (note : Note) (f : Note → Int)
    (u : NoteUpdate) (now : Nat)
    (hfound : firstOwned db note_id uid = some note) :
    (delete_note db uid note_id).1 = .ok "Note deleted successfully" ∧
    (delete_note (withVersions db f) uid note_id).1 = .ok "Note deleted successfully" ∧
    (∀ c, get_note (delete_note db uid note_id).2 c note_id = .error noteNotFound) ∧
    (∀ c, update_note (delete_note db uid note_id).2 c note_id u now
      = (.error noteNotFound, (delete_note db uid note_id).2)) ∧
    (∀ c, delete_note (delete_note db uid note_id).2 c note_id
      = (.error noteNotFound, (delete_note db uid note_id).2)) := by
  have hafter : ∀ c, firstOwned (delete_note db uid note_id).2 note_id c = none :=
    firstOwned_after_delete hfound
  have hfv : firstOwned (withVersions db f) note_id uid
      = some { note with version := f note } := by
    have hf2 : db.notes.find? (fun n => n.id == note_id && n.user_id == uid)
        = some note := hfound
    simp only [firstOwned, withVersions]
    rw [@find?_map_invariant db.notes (fun n => { n with version := f n })
      (fun n => n.id == note_id && n.user_id == uid) (fun m => rfl), hf2]
    rfl
  refine ⟨?_, ?_, ?_, ?_, ?_⟩
  · simp only [delete_note, hfound]
  · simp only [delete_note, hfv]
  · intro c
    simp only [get_note, hafter c]
  · intro c
    simp only [update_note, updateFetchCheck, hafter c]
  · intro c
    have h2 := hafter c
    generalize (delete_note db uid note_id).2 = db2 at h2 ⊢
    simp only [delete_note, h2]

/-- Witness for C8: deleting the sample note, with all versions rewritten
to 42 in the no-version-check clause. -/
theorem C8_witness :
    (delete_note sampleDB 7 1).1 = .ok "Note deleted successfully" ∧
    (delete_note (withVersions sampleDB (fun _ => 42)) 7 1).1 = .ok "Note deleted successfully" ∧
    (∀ c, get_note (delete_note sampleDB 7 1).2 c 1 = .error noteNotFound) ∧
    (∀ c, update_note (delete_note sampleDB 7 1).2 c 1 { title := "x", content := none, version := 2 } 9
      = (.error noteNotFound, (delete_note sampleDB 7 1).2)) ∧
    (∀ c, delete_note (delete_note sampleDB 7 1).2 c 1
      = (.error noteNotFound, (delete_note sampleDB 7 1).2)) :=
  C8_delete_unconditional_then_not_found sampleDB 7 1 sampleNote (fun _ => 42)
    { title := "x", content := none, version := 2 } 9 rfl

/-- C6: for a body passing validation, Create succeeds with 201 and yields a
note with version 1 and the body's title and content, and a Get by the same
user on the returned id yields back that very note, equal in every field
(in particular equal up to `updated_at`); for a body failing the title
constraints, Create fails through `validation_exception_handler` with error
code VALIDATION_ERROR and the database untouched. -/
theorem C6_create_get_round_trip
    (db : DB) (uid : Nat) (raw : RawNoteBody) (now : Nat) (hwf : WF db) :
    (∀ data, parseNoteCreate raw = .ok data →
      ∃ n db2, post_note_endpoint db uid raw now = (.note 201 n, db2) ∧
        n.version = 1 ∧ n.title = data.title ∧ n.content = data.content ∧
        get_note db2 uid n.id = .ok n) ∧
    (∀ errs, parseNoteCreate raw = .error errs →
      post_note_endpoint db uid raw now
        = (.invalid (validation_exception_handler errs), db) ∧
      (validation_exception_handler errs).error_code = "VALIDATION_ERROR") := by
  obtain ⟨hbound, hnd⟩ := hwf
  constructor
  · intro data hok
    refine ⟨(create_note db uid data now).1, (create_note db uid data now).2,
      ?_, rfl, rfl, rfl, ?_⟩
    · simp only [post_note_endpoint, hok]
    · have hfind : firstOwned (create_note db uid data now).2
          (create_note db uid data now).1.id uid
          = some (create_note db uid data now).1 := by
        simp only [firstOwned, create_note]
        apply find?_append_singleton
        · intro y hy
          have hlt := hbound y hy
          have hne : y.id ≠ db.nextId := Nat.ne_of_lt hlt
          simp [hne]
        · simp
      simp only [get_note, hfind]
  · intro errs herr
    refine ⟨?_, rfl⟩
    simp only [post_note_endpoint, herr]

/-- Witness for C6 at the empty database and a valid body. -/
theorem C6_witness :
    (∀ data, parseNoteCreate { title := some "hello", content := some "world", version := none }
        = .ok data →
      ∃ n db2, post_note_endpoint emptyDB 7
          { title := some "hello", content := some "world", version := none } 0
          = (.note 201 n, db2) ∧
        n.version = 1 ∧ n.title = data.title ∧ n.content = data.content ∧
        get_note db2 7 n.id = .ok n) ∧
    (∀ errs, parseNoteCreate { title := some "hello", content := some "world", version := none }
        = .error errs →
      post_note_endpoint emptyDB 7
          { title := some "hello", content := some "world", version := none } 0
        = (.invalid (validation_exception_handler errs), emptyDB) ∧
      (validation_exception_handler errs).error_code = "VALIDATION_ERROR") :=
  C6_create_get_round_trip emptyDB 7
    { title := some "hello", content := some "world", version := none } 0 (by decide)

/-- C2: a created note starts at version 1; any chain of sequential updates
by the owner, each presenting the version returned by the previous call,
succeeds throughout and leaves the stored version at 1 + n after the n-th
update; and every successful `update_note` anywhere stores exactly the
fetched version plus one — never decremented, never skipped. -/
theorem C2_version_starts_at_one_and_increments_by_one
    (db : DB) (uid : Nat) (data : NoteCreate) (now now2 : Nat)
    (ps : List (String × Option String)) (hwf : WF db) :
    (create_note db uid data now).1.version = 1 ∧
    (∃ fin dbF,
      applyUpdates (create_note db uid data now).2 uid (create_note db uid data now).1.id
        (create_note db uid data now).1 ps now2 = some (fin, dbF) ∧
      fin.version = 1 + ps.length ∧
      firstOwned dbF (create_note db uid data now).1.id uid = some fin) ∧
    (∀ db2 uid2 id2 u2 now3 n2 db3,
      update_note db2 uid2 id2 u2 now3 = (.ok n2, db3) →
      ∃ cur, firstOwned db2 id2 uid2 = some cur ∧ n2.version = cur.version + 1) := by
  obtain ⟨hbound, hnd⟩ := hwf
  have hndc : ((create_note db uid data now).2.notes.map (fun n => n.id)).Nodup :=
    (WF_create uid data now ⟨hbound, hnd⟩).2
  have hfind : firstOwned (create_note db uid data now).2
      (create_note db uid data now).1.id uid
      = some (create_note db uid data now).1 := by
    simp only [firstOwned, create_note]
    apply find?_append_singleton
    · intro y hy
      have hlt := hbound y hy
      have hne : y.id ≠ db.nextId := Nat.ne_of_lt hlt
      simp [hne]
    · simp
  refine ⟨rfl, ?_, ?_⟩
  · obtain ⟨fin, dbF, happ, hver, hff, -⟩ :=
      applyUpdates_ok uid (create_note db uid data now).1.id now2 ps
        (create_note db uid data now).2 (create_note db uid data now).1 hndc hfind
    exact ⟨fin, dbF, happ, hver, hff⟩
  · intro db2 uid2 id2 u2 now3 n2 db3 hupd
    cases hf : firstOwned db2 id2 uid2 with
    | none =>
        simp only [update_note, updateFetchCheck, hf, Prod.mk.injEq] at hupd
        exact absurd hupd.1 (by simp)
    | some cur =>
        refine ⟨cur, rfl, ?_⟩
        by_cases hv : cur.version ≠ u2.version
        · simp only [update_note, updateFetchCheck, hf, if_pos hv, Prod.mk.injEq] at hupd
          exact absurd hupd.1 (by simp)
        · simp only [update_note, updateFetchCheck, hf, if_neg hv, Prod.mk.injEq] at hupd
          have hh : (updateWrite db2 cur u2 now3).1 = n2 := Except.ok.inj hupd.1
          rw [← hh]
          rfl

/-- Witness for C2: create in the empty database, then a two-step update
chain. -/
theorem C2_witness :
    (create_note emptyDB 7 { title := "t", content := some "c" } 0).1.version = 1 ∧
    (∃ fin dbF,
      applyUpdates (create_note emptyDB 7 { title := "t", content := some "c" } 0).2 7
        (create_note emptyDB 7 { title := "t", content := some "c" } 0).1.id
        (create_note emptyDB 7 { title := "t", content := some "c" } 0).1
        [("a", none), ("b", some "x")] 1 = some (fin, dbF) ∧
      fin.version = 1 + ([("a", none), ("b", some "x")] :
        List (String × Option String)).length ∧
      firstOwned dbF (create_note emptyDB 7 { title := "t", content := some "c" } 0).1.id 7
        = some fin) ∧
    (∀ db2 uid2 id2 u2 now3 n2 db3,
      update_note db2 uid2 id2 u2 now3 = (.ok n2, db3) →
      ∃ cur, firstOwned db2 id2 uid2 = some cur ∧ n2.version = cur.version + 1) :=
  C2_version_starts_at_one_and_increments_by_one emptyDB 7
    { title := "t", content := some "c" } 0 1 [("a", none), ("b", some "x")] (by decide)
